import Mathlib

/-!
Verification of the Aerovant data-collection repository
(`MQ135.py`, `data_collection.py`, `data_collection1.py`).

The three Python files are near-duplicate variants of one acquisition loop:
read sensors, build a timestamped record, append it to a CSV file, sleep.
We shallow-embed the per-cycle behaviour of each variant, together with a
finite-trace model of the `while True` loop and of the output file, and
prove the spec's claims about conversion, header emission, failure handling
and cadence.

Modelling conventions:

* A CSV cell is a `Value` (string, Python int, or Python float).  Floats are
  carried as rationals: none of the claims involve floating-point rounding,
  only which cells are of float type and which integer values are written.
* The environmental (DHT) read of one cycle is an
  `Except Unit (Option Value × Option Value)`: `.error ()` models the
  `RuntimeError` raised by the driver (caught inside `_read_sensors`, which
  then sets both values to `None`), `.ok (t, h)` models a return where each
  of temperature/humidity may independently be `None`.
* Faults inside a cycle are an explicit input `CycleFault`: `atRead` models
  an unexpected exception raised inside `_read_sensors` (e.g. from
  `channel.value`), `atAppend` models `DataFrame.to_csv` raising.  Both are
  caught by the `except Exception` at the cycle boundary in the source.
* The output file is `Option (List Line)`: `none` = the path does not exist
  (`pd.io.common.file_exists` is false), `some lines` = the file's rows.
  `time.sleep` calls are counted in the cycle outcome.
* `removedBefore` models an external agent deleting the output file between
  two cycles; it is the observable difference between a sink that fixes its
  header decision at creation (`MQ135.py`, `data_collection1.py`) and one
  that re-derives it from file existence at every append
  (`data_collection.py`).
-/

/-- A CSV cell value: Python str, int, or float (floats as exact rationals,
since no claim depends on floating-point rounding). -/
inductive Value where
  | str (s : String)
  | int (n : Int)
  | float (q : ℚ)
deriving DecidableEq, Repr

/-- Whether a cell holds a Python float. -/
def Value.isFloat : Value → Bool
  | .float _ => true
  | _ => false

/-- Python's `float(x)` on the values the DHT driver yields (ints or floats);
a string never reaches this call site in the source. -/
def pyFloat : Value → Value
  | .int n => .float (n : ℚ)
  | .float q => .float q
  | .str _ => .float 0

/-- One physical line of the output CSV file: the header row or a data row. -/
inductive Line where
  | header (cols : List String)
  | row (fields : List Value)
deriving DecidableEq, Repr

/-- The output file: `none` when the path does not exist. -/
abbrev FileState : Type := Option (List Line)

/-- Where, if anywhere, an unexpected exception is raised during one cycle:
`atRead` inside `_read_sensors`, `atAppend` inside `to_csv`. -/
inductive CycleFault where
  | ok
  | atRead
  | atAppend
deriving DecidableEq, Repr

/-- The per-cycle inputs drawn from the outside world: wall-clock timestamp,
raw 16-bit ADC code(s) (`α` is `Nat` for the single-channel variant, `Raws`
for the five-channel ones), the DHT read outcome, the fault point, and
whether an external agent removed the output file just before this cycle. -/
structure CycleIn (α : Type) where
  ts : String
  raw : α
  env : Except Unit (Option Value × Option Value)
  fault : CycleFault
  removedBefore : Bool

/-- Observable outcome of one loop iteration: the updated `header_needed`
flag, whether this iteration's `to_csv` wrote a header row, the data rows it
wrote, whether a warning / an error was logged, and how many `time.sleep`
calls ran. -/
structure CycleOut where
  headerNeeded : Bool
  wroteHeader : Bool
  rows : List (List Value)
  warned : Bool
  errored : Bool
  sleeps : Nat

/-- `TRUE_PPM_VALUE = 100` (MQ135.py line 25, data_collection.py line 24,
data_collection1.py line 47). -/
def TRUE_PPM_VALUE : Int := 100

/-- One iteration of the `while True` body shared by all three variants,
parameterised by the row builder `mk` of the variant.  `headerNeeded` is the
header decision in force for this iteration's `to_csv` call.  Follows the
source: read sensors (a `RuntimeError` from the DHT is caught inside
`_read_sensors` with a warning and both values set to `None`); if
temperature or humidity is `None`, warn, sleep and `continue`; otherwise
build the data point and append it (header per `headerNeeded`), clearing the
flag only after `to_csv` returns; any unexpected exception is caught by the
cycle-boundary `except Exception`, which logs an error; finally sleep. -/
def loopBody (mk : String → Value → Value → α → List Value)
    (headerNeeded : Bool) (i : CycleIn α) : CycleOut :=
  match i.fault with
  | .atRead => ⟨headerNeeded, false, [], false, true, 1⟩
  | f =>
    match i.env with
    | .error _ => ⟨headerNeeded, false, [], true, false, 1⟩
    | .ok (some t, some h) =>
      if f = .atAppend then ⟨headerNeeded, false, [], false, true, 1⟩
      else ⟨false, headerNeeded, [mk i.ts t h i.raw], false, false, 1⟩
    | .ok _ => ⟨headerNeeded, false, [], true, false, 1⟩

/-- `df_point.to_csv(log_file, mode='a', header=..., index=False)`: append
the (possible) header line and the data rows to the file, creating it when
absent. -/
def appendLines (f : FileState) (o : CycleOut) (cols : List String) : FileState :=
  if o.rows.isEmpty then f
  else some (f.getD [] ++
    (if o.wroteHeader then [Line.header cols] else []) ++ o.rows.map Line.row)

/-- One step of a flag-based sink (MQ135.py, data_collection1.py): the
`header_needed` flag is program state threaded across cycles; the file may
have been externally removed just before the cycle. -/
def flagStep (mk : String → Value → Value → α → List Value) (cols : List String)
    (s : Bool × FileState) (i : CycleIn α) : (Bool × FileState) × CycleOut :=
  let f0 : FileState := if i.removedBefore then none else s.2
  let o := loopBody mk s.1 i
  ((o.headerNeeded, appendLines f0 o cols), o)

/-- Final program-and-file state after running a finite prefix of the loop
of a flag-based sink. -/
def flagRunState (mk : String → Value → Value → α → List Value)
    (cols : List String) : Bool × FileState → List (CycleIn α) → Bool × FileState
  | s, [] => s
  | s, i :: is => flagRunState mk cols (flagStep mk cols s i).1 is

/-- Per-cycle outcomes of a finite prefix of the loop of a flag-based sink. -/
def flagRunOuts (mk : String → Value → Value → α → List Value)
    (cols : List String) : Bool × FileState → List (CycleIn α) → List CycleOut
  | _, [] => []
  | s, i :: is => (flagStep mk cols s i).2 :: flagRunOuts mk cols (flagStep mk cols s i).1 is

/-- Number of `time.sleep(sample_interval)` calls across a run. -/
def totalSleeps (outs : List CycleOut) : Nat := (outs.map (fun o => o.sleeps)).sum

/-- Total time spent sleeping across a run, for a given sample interval. -/
def sleepTime (interval : Nat) (outs : List CycleOut) : Nat :=
  (outs.map (fun o => o.sleeps * interval)).sum

/-- Number of cycles of a run whose `to_csv` call wrote a header row. -/
def headersEmitted (outs : List CycleOut) : Nat :=
  (outs.filter (fun o => o.wroteHeader)).length

/-- The data rows a run appended, in order. -/
def emittedRows (outs : List CycleOut) : List (List Value) :=
  (outs.map (fun o => o.rows)).flatten

namespace MQ135

/-- Column order of the data point dict of MQ135.py lines 79-85 (pandas
writes the header in dict insertion order). -/
def headerCols : List String :=
  ["timestamp", "true_ppm", "temp_c", "hum_pct", "MQ135_adc"]

/-- MQ135.py line 46: `channel.value // 64` — convert the 16-bit code to
10 bits. -/
def readChannel (raw16 : Nat) : Nat := raw16 / 64

/-- The data point of MQ135.py lines 79-85 as a CSV row: timestamp,
`TRUE_PPM_VALUE`, `float(temperature)`, `float(humidity)`, converted
channel code. -/
def sensorRow (ts : String) (t h : Value) (raw16 : Nat) : List Value :=
  [Value.str ts, Value.int TRUE_PPM_VALUE, pyFloat t, pyFloat h,
   Value.int (readChannel raw16)]

/-- One iteration of `collect_and_log_data`'s loop (MQ135.py lines 66-101). -/
def cycle : Bool → CycleIn Nat → CycleOut := loopBody sensorRow

/-- `header_needed = not pd.io.common.file_exists(log_file)` (MQ135.py
line 64), evaluated once before the loop. -/
def mkSink (f : FileState) : Bool := f.isNone

/-- Final state of a finite prefix of the MQ135.py loop. -/
def runState : Bool × FileState → List (CycleIn Nat) → Bool × FileState :=
  flagRunState sensorRow headerCols

/-- Cycle outcomes of a finite prefix of the MQ135.py loop. -/
def runOuts : Bool × FileState → List (CycleIn Nat) → List CycleOut :=
  flagRunOuts sensorRow headerCols

end MQ135

/-- The five raw 16-bit channel codes of one cycle of the five-channel
variants, in the fixed dict order of `sensor_channels`. -/
structure Raws where
  mq2 : Nat
  mq4 : Nat
  mq5 : Nat
  mq9 : Nat
  mq135 : Nat
deriving DecidableEq, Repr

/-- Column order shared by data_collection.py and data_collection1.py:
the data point dict lists timestamp, true_ppm, temp_c, hum_pct, then the
five channels in `sensor_channels` insertion order. -/
def fiveChannelCols : List String :=
  ["timestamp", "true_ppm", "temp_c", "hum_pct",
   "MQ2_adc", "MQ4_adc", "MQ5_adc", "MQ9_adc", "MQ135_adc"]

namespace DataCollection

/-- Column order of the data point dict of data_collection.py lines 93-99. -/
def headerCols : List String := fiveChannelCols

/-- data_collection.py line 53: `raw_readings[name] = channel.value` — the
16-bit code is stored unconverted. -/
def readChannel (raw16 : Nat) : Nat := raw16

/-- The data point of data_collection.py lines 93-99 as a CSV row:
temperature and humidity are passed through without a `float(...)` cast and
the channel codes are the unconverted 16-bit values. -/
def sensorRow (ts : String) (t h : Value) (r : Raws) : List Value :=
  [Value.str ts, Value.int TRUE_PPM_VALUE, t, h,
   Value.int (readChannel r.mq2), Value.int (readChannel r.mq4),
   Value.int (readChannel r.mq5), Value.int (readChannel r.mq9),
   Value.int (readChannel r.mq135)]

/-- One iteration of data_collection.py's loop (lines 79-115), given the
header decision in force; the caller computes it from file existence. -/
def cycle : Bool → CycleIn Raws → CycleOut := loopBody sensorRow

/-- One step of data_collection.py's loop: there is no sink-creation flag;
`header = not pd.io.common.file_exists(log_file)` (line 104) is re-derived
from the current file state at every append. -/
def step (f : FileState) (i : CycleIn Raws) : FileState × CycleOut :=
  let f0 : FileState := if i.removedBefore then none else f
  let o := cycle f0.isNone i
  (appendLines f0 o headerCols, o)

/-- Final file state of a finite prefix of the data_collection.py loop. -/
def runState : FileState → List (CycleIn Raws) → FileState
  | f, [] => f
  | f, i :: is => runState (step f i).1 is

/-- Cycle outcomes of a finite prefix of the data_collection.py loop. -/
def runOuts : FileState → List (CycleIn Raws) → List CycleOut
  | _, [] => []
  | f, i :: is => (step f i).2 :: runOuts (step f i).1 is

end DataCollection

namespace DataCollection1

/-- Column order of the data point dict of data_collection1.py lines 116-122. -/
def headerCols : List String := fiveChannelCols

/-- data_collection1.py line 78: `channel.value // 64` — convert the 16-bit
code to 10 bits. -/
def readChannel (raw16 : Nat) : Nat := raw16 / 64

/-- The data point of data_collection1.py lines 116-122 as a CSV row:
temperature and humidity are passed through without a `float(...)` cast;
the channel codes are the converted 10-bit values. -/
def sensorRow (ts : String) (t h : Value) (r : Raws) : List Value :=
  [Value.str ts, Value.int TRUE_PPM_VALUE, t, h,
   Value.int (readChannel r.mq2), Value.int (readChannel r.mq4),
   Value.int (readChannel r.mq5), Value.int (readChannel r.mq9),
   Value.int (readChannel r.mq135)]

/-- One iteration of `collect_and_log_data`'s loop (data_collection1.py
lines 102-138). -/
def cycle : Bool → CycleIn Raws → CycleOut := loopBody sensorRow

/-- `header_needed = not pd.io.common.file_exists(log_file)`
(data_collection1.py line 100), evaluated once before the loop. -/
def mkSink (f : FileState) : Bool := f.isNone

/-- Final state of a finite prefix of the data_collection1.py loop. -/
def runState : Bool × FileState → List (CycleIn Raws) → Bool × FileState :=
  flagRunState sensorRow headerCols

/-- Cycle outcomes of a finite prefix of the data_collection1.py loop. -/
def runOuts : Bool × FileState → List (CycleIn Raws) → List CycleOut :=
  flagRunOuts sensorRow headerCols

end DataCollection1

section CycleLemmas

variable {α : Type} (mk : String → Value → Value → α → List Value)

/-- Every branch of the loop body performs exactly one `time.sleep`. -/
theorem loopBody_sleeps (flag : Bool) (i : CycleIn α) :
    (loopBody mk flag i).sleeps = 1 := by
  rcases i with ⟨ts, raw, env, fault, rb⟩
  cases fault <;> rcases env with u | ⟨t, h⟩ <;>
    first
      | rfl
      | (rcases t with _ | t <;> rcases h with _ | h <;> simp [loopBody])

/-- Once the `header_needed` flag is false it stays false, and no header is
written. -/
theorem loopBody_flag_false (i : CycleIn α) :
    (loopBody mk false i).headerNeeded = false ∧
      (loopBody mk false i).wroteHeader = false := by
  rcases i with ⟨ts, raw, env, fault, rb⟩
  cases fault <;> rcases env with u | ⟨t, h⟩ <;>
    first
      | exact ⟨rfl, rfl⟩
      | (rcases t with _ | t <;> rcases h with _ | h <;> simp [loopBody])

/-- An iteration that appends no row leaves the flag unchanged and writes no
header. -/
theorem loopBody_skip (flag : Bool) (i : CycleIn α)
    (h : (loopBody mk flag i).rows = []) :
    (loopBody mk flag i).headerNeeded = flag ∧
      (loopBody mk flag i).wroteHeader = false := by
  rcases i with ⟨ts, raw, env, fault, rb⟩
  cases fault <;> rcases env with u | ⟨t, h'⟩ <;>
    first
      | exact ⟨rfl, rfl⟩
      | (rcases t with _ | t <;> rcases h' with _ | h' <;>
         simp_all [loopBody])

/-- An iteration that appends a row is a fault-free iteration whose DHT read
returned both values; it writes the header exactly when the flag was set and
clears the flag. -/
theorem loopBody_append (flag : Bool) (i : CycleIn α)
    (h : (loopBody mk flag i).rows ≠ []) :
    ∃ t hm, i.env = .ok (some t, some hm) ∧ i.fault = .ok ∧
      loopBody mk flag i = ⟨false, flag, [mk i.ts t hm i.raw], false, false, 1⟩ := by
  rcases i with ⟨ts, raw, env, fault, rb⟩
  cases fault with
  | atRead => exact absurd rfl h
  | atAppend =>
    rcases env with u | ⟨t, h'⟩
    · exact absurd rfl h
    · rcases t with _ | t <;> rcases h' with _ | h' <;> simp [loopBody] at h
  | ok =>
    rcases env with u | ⟨t, h'⟩
    · exact absurd rfl h
    · rcases t with _ | t <;> rcases h' with _ | h'
      · exact absurd rfl h
      · exact absurd rfl h
      · exact absurd rfl h
      · exact ⟨t, h', rfl, rfl, rfl⟩

/-- Every appended row is the variant's data point built from that cycle's
timestamp, DHT values and raw codes. -/
theorem loopBody_rows_shape (flag : Bool) (i : CycleIn α) :
    ∀ r ∈ (loopBody mk flag i).rows,
      ∃ t hm, i.env = .ok (some t, some hm) ∧ r = mk i.ts t hm i.raw := by
  intro r hr
  have hne : (loopBody mk flag i).rows ≠ [] := by
    intro h0
    rw [h0] at hr
    exact (List.not_mem_nil r) hr
  obtain ⟨t, hm, henv, -, heq⟩ := loopBody_append mk flag i hne
  rw [heq] at hr
  exact ⟨t, hm, henv, (List.mem_singleton.mp hr)⟩

end CycleLemmas

theorem emittedRows_cons (o : CycleOut) (outs : List CycleOut) :
    emittedRows (o :: outs) = o.rows ++ emittedRows outs := by
  simp [emittedRows]

theorem emittedRows_nil : emittedRows [] = [] := rfl

theorem headersEmitted_cons (o : CycleOut) (outs : List CycleOut) :
    headersEmitted (o :: outs)
      = (if o.wroteHeader then 1 else 0) + headersEmitted outs := by
  simp only [headersEmitted, List.filter_cons]
  split <;> simp [Nat.add_comm]

theorem totalSleeps_cons (o : CycleOut) (outs : List CycleOut) :
    totalSleeps (o :: outs) = o.sleeps + totalSleeps outs := by
  simp [totalSleeps]

theorem sleepTime_cons (interval : Nat) (o : CycleOut) (outs : List CycleOut) :
    sleepTime interval (o :: outs)
      = o.sleeps * interval + sleepTime interval outs := by
  simp [sleepTime]

section RunLemmas

variable {α : Type} (mk : String → Value → Value → α → List Value)

/-- The outcome component of one flag-sink step is the loop body's outcome. -/
theorem flagStep_out (cols : List String) (s : Bool × FileState) (i : CycleIn α) :
    (flagStep mk cols s i).2 = loopBody mk s.1 i := rfl

/-- Appending without a header to a file that starts with a header keeps the
header at the front and adds the data rows at the end. -/
theorem appendLines_no_header (rows0 : List Line) (o : CycleOut)
    (cols : List String) (h : o.wroteHeader = false) :
    appendLines (some (Line.header cols :: rows0)) o cols
      = some (Line.header cols :: (rows0 ++ o.rows.map Line.row)) := by
  unfold appendLines
  rcases ho : o.rows with _ | ⟨r, rs⟩
  · simp [ho]
  · simp [ho, h]

/-- Running a flag-based sink whose flag is already cleared, on a file that
starts with a header row, never writes another header and only appends the
cycles' data rows after the existing content. -/
theorem flagRunState_from_header (cols : List String) :
    ∀ (inputs : List (CycleIn α)),
      (∀ i ∈ inputs, i.removedBefore = false) →
      ∀ rows0 : List Line,
        flagRunState mk cols (false, some (Line.header cols :: rows0)) inputs
          = (false, some (Line.header cols ::
              (rows0 ++ (emittedRows (flagRunOuts mk cols
                (false, some (Line.header cols :: rows0)) inputs)).map Line.row))) ∧
        headersEmitted (flagRunOuts mk cols
          (false, some (Line.header cols :: rows0)) inputs) = 0 := by
  intro inputs
  induction inputs with
  | nil =>
    intro _ rows0
    constructor
    · simp [flagRunState, flagRunOuts, emittedRows]
    · rfl
  | cons i is ih =>
    intro hnr rows0
    have hi : i.removedBefore = false := hnr i (by simp)
    have hnr' : ∀ j ∈ is, j.removedBefore = false :=
      fun j hj => hnr j (by simp [hj])
    have hflag := loopBody_flag_false mk i
    have hstep : (flagStep mk cols (false, some (Line.header cols :: rows0)) i).1
        = (false, some (Line.header cols ::
            (rows0 ++ (loopBody mk false i).rows.map Line.row))) := by
      simp [flagStep, hi, hflag.1, appendLines_no_header _ _ _ hflag.2]
    obtain ⟨h1, h2⟩ := ih hnr' (rows0 ++ (loopBody mk false i).rows.map Line.row)
    constructor
    · simp only [flagRunState, flagRunOuts, hstep]
      rw [h1]
      simp only [flagStep_out, emittedRows_cons]
      simp [List.append_assoc]
    · simp only [flagRunOuts, hstep, headersEmitted_cons, flagStep_out,
        hflag.2]
      rw [h2]
      simp

/-- Running a flag-based sink from a fresh path either appends nothing and
leaves the state untouched, or leaves a file that is exactly one header row
followed by the appended data rows, the header having been emitted once. -/
theorem flagRunState_from_fresh (cols : List String) :
    ∀ (inputs : List (CycleIn α)),
      (∀ i ∈ inputs, i.removedBefore = false) →
      (flagRunState mk cols (true, none) inputs = (true, none) ∧
         emittedRows (flagRunOuts mk cols (true, none) inputs) = [] ∧
         headersEmitted (flagRunOuts mk cols (true, none) inputs) = 0)
      ∨ (flagRunState mk cols (true, none) inputs
           = (false, some (Line.header cols ::
               (emittedRows (flagRunOuts mk cols (true, none) inputs)).map Line.row)) ∧
         headersEmitted (flagRunOuts mk cols (true, none) inputs) = 1) := by
  intro inputs
  induction inputs with
  | nil => intro _; left; exact ⟨rfl, rfl, rfl⟩
  | cons i is ih =>
    intro hnr
    have hi : i.removedBefore = false := hnr i (by simp)
    have hnr' : ∀ j ∈ is, j.removedBefore = false :=
      fun j hj => hnr j (by simp [hj])
    by_cases hrows : (loopBody mk true i).rows = []
    · have hskip := loopBody_skip mk true i hrows
      have hstep : (flagStep mk cols (true, none) i).1 = (true, none) := by
        simp [flagStep, hi, hskip.1, appendLines, hrows]
      rcases ih hnr' with ⟨h1, h2, h3⟩ | ⟨h1, h2⟩
      · left
        refine ⟨?_, ?_, ?_⟩
        · simp only [flagRunState, hstep]; exact h1
        · simp only [flagRunOuts, hstep, emittedRows_cons, flagStep_out, hrows]
          simpa using h2
        · simp only [flagRunOuts, hstep, headersEmitted_cons, flagStep_out,
            hskip.2, if_false]
          simpa using h3
      · right
        constructor
        · simp only [flagRunState, flagRunOuts, hstep]
          rw [h1]
          simp only [flagStep_out, emittedRows_cons, hrows, hstep]
          simp
        · simp only [flagRunOuts, hstep, headersEmitted_cons, flagStep_out,
            hskip.2, if_false]
          simpa using h2
    · obtain ⟨t, hm, henv, hfault, heq⟩ := loopBody_append mk true i hrows
      have hstep : (flagStep mk cols (true, none) i).1
          = (false, some (Line.header cols :: [Line.row (mk i.ts t hm i.raw)])) := by
        simp [flagStep, hi, heq, appendLines]
      obtain ⟨ha1, ha2⟩ :=
        flagRunState_from_header mk cols is hnr' [Line.row (mk i.ts t hm i.raw)]
      right
      constructor
      · simp only [flagRunState, flagRunOuts, hstep]
        rw [ha1]
        simp only [flagStep_out, emittedRows_cons, heq, hstep]
        simp
      · simp only [flagRunOuts, hstep, headersEmitted_cons, flagStep_out, heq]
        simp [ha2]

/-- Every data row appended by a run of a flag-based sink satisfies any
property enjoyed by all data points the variant's row builder can produce
from the run's inputs. -/
theorem flagRunOuts_rows_pred (cols : List String) (P : List Value → Prop) :
    ∀ (inputs : List (CycleIn α)) (s : Bool × FileState),
      (∀ i ∈ inputs, ∀ t h : Value, P (mk i.ts t h i.raw)) →
      ∀ r ∈ emittedRows (flagRunOuts mk cols s inputs), P r := by
  intro inputs
  induction inputs with
  | nil => intro s _ r hr; simp [flagRunOuts, emittedRows] at hr
  | cons i is ih =>
    intro s hP r hr
    simp only [flagRunOuts, emittedRows_cons] at hr
    rcases List.mem_append.mp hr with h1 | h2
    · rw [flagStep_out] at h1
      obtain ⟨t, hm, -, heq⟩ := loopBody_rows_shape mk s.1 i r h1
      rw [heq]
      exact hP i (by simp) t hm
    · exact ih _ (fun j hj t hm => hP j (by simp [hj]) t hm) r h2

/-- A flag-based sink sleeps exactly once per cycle. -/
theorem flagRunOuts_sleeps (cols : List String) :
    ∀ (inputs : List (CycleIn α)) (s : Bool × FileState),
      totalSleeps (flagRunOuts mk cols s inputs) = inputs.length := by
  intro inputs
  induction inputs with
  | nil => intro s; rfl
  | cons i is ih =>
    intro s
    simp only [flagRunOuts, totalSleeps_cons, flagStep_out, loopBody_sleeps,
      ih, List.length_cons]
    omega

/-- Total sleep time of a flag-based sink is the cycle count times the
configured interval. -/
theorem flagRunOuts_sleepTime (cols : List String) (interval : Nat) :
    ∀ (inputs : List (CycleIn α)) (s : Bool × FileState),
      sleepTime interval (flagRunOuts mk cols s inputs)
        = inputs.length * interval := by
  intro inputs
  induction inputs with
  | nil => intro s; simp [sleepTime, flagRunOuts]
  | cons i is ih =>
    intro s
    simp only [flagRunOuts, sleepTime_cons, flagStep_out, loopBody_sleeps,
      ih, List.length_cons]
    ring

end RunLemmas

/-- Whether a DHT read outcome returned with both temperature and humidity
present. -/
def envOkBoth : Except Unit (Option Value × Option Value) → Bool
  | .ok (some _, some _) => true
  | _ => false

/-- An unexpected exception is actually raised during the cycle: either the
sensor read itself raises, or the append is reached (DHT returned both
values) and `to_csv` raises. -/
def faultFires {α : Type} (i : CycleIn α) : Prop :=
  i.fault = .atRead ∨ (i.fault = .atAppend ∧ envOkBoth i.env = true)

/-- A cycle in which an unexpected exception is raised ends like a skip: the
exception is absorbed at the cycle boundary, an error is logged, no row is
appended, the flag is untouched and the cycle still sleeps once. -/
theorem loopBody_fault {α : Type} (mk : String → Value → Value → α → List Value)
    (flag : Bool) (i : CycleIn α) (h : faultFires i) :
    loopBody mk flag i = ⟨flag, false, [], false, true, 1⟩ := by
  rcases i with ⟨ts, raw, env, fault, rb⟩
  rcases h with h | ⟨h, hb⟩
  · simp only at h
    subst h
    rfl
  · simp only at h hb
    subst h
    rcases env with u | ⟨t, hm⟩
    · simp [envOkBoth] at hb
    · rcases t with _ | t <;> rcases hm with _ | hm
      · simp [envOkBoth] at hb
      · simp [envOkBoth] at hb
      · simp [envOkBoth] at hb
      · rfl

/-- C3: when the environmental (DHT) read raises in a cycle, both fields are
treated as absent (`_read_sensors` catches the `RuntimeError` and sets both
to `None`), a warning is logged, no record is built or persisted (zero rows,
no header, no error), the `header_needed` flag is untouched, and the cycle
still sleeps exactly once for the configured interval before the next cycle
(MQ135.py lines 48-53 and 73-76). -/
theorem C3_env_failure_skips (flag : Bool) (ts : String) (raw16 : Nat)
    (rb : Bool) :
    MQ135.cycle flag ⟨ts, raw16, .error (), .ok, rb⟩
      = ⟨flag, false, [], true, false, 1⟩ := rfl

/-- C4: any exception actually raised inside one acquisition cycle — during
the sensor read, or during record build and append once the read succeeded —
is caught by the cycle-boundary `except Exception`, logged as an error, and
the cycle ends as a skip: no row is appended, no header is written, the
`header_needed` flag is untouched, and the cycle still reaches the sleep
stage (exactly one sleep).  Stated for MQ135.py (lines 66-101) and
data_collection.py (lines 79-115). -/
theorem C4_cycle_fault_isolated (flag fa : Bool) (i : CycleIn Nat)
    (j : CycleIn Raws) (hi : faultFires i) (hj : faultFires j) :
    MQ135.cycle flag i = ⟨flag, false, [], false, true, 1⟩
    ∧ DataCollection.cycle fa j = ⟨fa, false, [], false, true, 1⟩ :=
  ⟨loopBody_fault MQ135.sensorRow flag i hi,
   loopBody_fault DataCollection.sensorRow fa j hj⟩

theorem C4_cycle_fault_isolated_witness :
    faultFires (⟨"t", 7, .ok (some (Value.float 24), some (Value.float 55)),
        .atAppend, false⟩ : CycleIn Nat)
    ∧ faultFires (⟨"t", ⟨1, 2, 3, 4, 5⟩, .error (), .atRead, false⟩ : CycleIn Raws)
    ∧ MQ135.cycle true ⟨"t", 7, .ok (some (Value.float 24), some (Value.float 55)),
        .atAppend, false⟩ = ⟨true, false, [], false, true, 1⟩
    ∧ DataCollection.cycle false ⟨"t", ⟨1, 2, 3, 4, 5⟩, .error (), .atRead, false⟩
        = ⟨false, false, [], false, true, 1⟩ := by
  refine ⟨Or.inr ⟨rfl, rfl⟩, Or.inl rfl, ?_⟩
  exact C4_cycle_fault_isolated true false _ _ (Or.inr ⟨rfl, rfl⟩) (Or.inl rfl)

/-- C5: in every cycle — success, environmental-failure skip, or caught
unexpected exception — the loop sleeps exactly once, so over any finite
prefix of the run the number of sleeps equals the number of cycles and the
total sleep time is cycles × interval, independent of the success/failure
mix.  Stated for MQ135.py (lines 73-101) and data_collection1.py
(lines 110-138), from any starting state. -/
theorem C5_constant_cadence (interval : Nat) (inputs : List (CycleIn Nat))
    (inputs1 : List (CycleIn Raws)) (s s1 : Bool × FileState) :
    totalSleeps (MQ135.runOuts s inputs) = inputs.length
    ∧ sleepTime interval (MQ135.runOuts s inputs) = inputs.length * interval
    ∧ totalSleeps (DataCollection1.runOuts s1 inputs1) = inputs1.length
    ∧ sleepTime interval (DataCollection1.runOuts s1 inputs1)
        = inputs1.length * interval :=
  ⟨flagRunOuts_sleeps MQ135.sensorRow MQ135.headerCols inputs s,
   flagRunOuts_sleepTime MQ135.sensorRow MQ135.headerCols interval inputs s,
   flagRunOuts_sleeps DataCollection1.sensorRow DataCollection1.headerCols inputs1 s1,
   flagRunOuts_sleepTime DataCollection1.sensorRow DataCollection1.headerCols
     interval inputs1 s1⟩

/-- C9: if `to_csv` raises while the header is still pending
(`header_needed = true`), the `if header_needed: header_needed = False`
update is never reached, so the flag stays pending, and the next successful
append still emits the header followed by the row; the flag is cleared
exactly by an append that returns without raising (MQ135.py lines 92-96,
data_collection1.py lines 128-133). -/
theorem C9_header_pending_after_failed_append (ts ts2 : String)
    (raw raw2 : Nat) (r r2 : Raws) (t hm t2 h2 : Value) (rb rb2 : Bool) :
    MQ135.cycle true ⟨ts, raw, .ok (some t, some hm), .atAppend, rb⟩
      = ⟨true, false, [], false, true, 1⟩
    ∧ MQ135.cycle true ⟨ts2, raw2, .ok (some t2, some h2), .ok, rb2⟩
      = ⟨false, true, [MQ135.sensorRow ts2 t2 h2 raw2], false, false, 1⟩
    ∧ DataCollection1.cycle true ⟨ts, r, .ok (some t, some hm), .atAppend, rb⟩
      = ⟨true, false, [], false, true, 1⟩
    ∧ DataCollection1.cycle true ⟨ts2, r2, .ok (some t2, some h2), .ok, rb2⟩
      = ⟨false, true, [DataCollection1.sensorRow ts2 t2 h2 r2], false, false, 1⟩ :=
  ⟨rfl, rfl, rfl, rfl⟩

/-- C10: a partial environmental reading — exactly one of temperature or
humidity is `None` without the read raising — also makes the cycle skip
with a warning: no row is appended, no header written, the flag untouched,
one sleep; and conversely a row is ever appended only when both values were
present (MQ135.py lines 73-76, data_collection.py lines 87-90). -/
theorem C10_partial_reading_skips (flag fa : Bool) (ts : String) (raw : Nat)
    (r : Raws) (t hm : Value) (rb : Bool) (i : CycleIn Nat) (j : CycleIn Raws)
    (hi : (MQ135.cycle flag i).rows ≠ [])
    (hj : (DataCollection.cycle fa j).rows ≠ []) :
    MQ135.cycle flag ⟨ts, raw, .ok (some t, none), .ok, rb⟩
      = ⟨flag, false, [], true, false, 1⟩
    ∧ MQ135.cycle flag ⟨ts, raw, .ok (none, some hm), .ok, rb⟩
      = ⟨flag, false, [], true, false, 1⟩
    ∧ DataCollection.cycle fa ⟨ts, r, .ok (some t, none), .ok, rb⟩
      = ⟨fa, false, [], true, false, 1⟩
    ∧ DataCollection.cycle fa ⟨ts, r, .ok (none, some hm), .ok, rb⟩
      = ⟨fa, false, [], true, false, 1⟩
    ∧ (∃ t0 h0, i.env = .ok (some t0, some h0))
    ∧ (∃ t1 h1, j.env = .ok (some t1, some h1)) := by
  obtain ⟨t0, h0, henv0, -, -⟩ := loopBody_append MQ135.sensorRow flag i hi
  obtain ⟨t1, h1, henv1, -, -⟩ := loopBody_append DataCollection.sensorRow fa j hj
  exact ⟨rfl, rfl, rfl, rfl, ⟨t0, h0, henv0⟩, ⟨t1, h1, henv1⟩⟩

theorem C10_partial_reading_skips_witness :
    ((MQ135.cycle true ⟨"t", 5, .ok (some (Value.float 24), some (Value.float 55)),
        .ok, false⟩).rows ≠ [])
    ∧ ((DataCollection.cycle true ⟨"t", ⟨1, 2, 3, 4, 5⟩,
        .ok (some (Value.float 24), some (Value.float 55)), .ok, false⟩).rows ≠ [])
    ∧ MQ135.cycle true ⟨"t", 5, .ok (some (Value.float 24), none), .ok, false⟩
        = ⟨true, false, [], true, false, 1⟩
    ∧ (∃ t0 h0,
        (⟨"t", 5, .ok (some (Value.float 24), some (Value.float 55)), .ok, false⟩
          : CycleIn Nat).env = .ok (some t0, some h0)) := by
  have h := C10_partial_reading_skips true true "t" 5 ⟨1, 2, 3, 4, 5⟩
    (Value.float 24) (Value.float 55) false
    ⟨"t", 5, .ok (some (Value.float 24), some (Value.float 55)), .ok, false⟩
    ⟨"t", ⟨1, 2, 3, 4, 5⟩, .ok (some (Value.float 24), some (Value.float 55)),
      .ok, false⟩
    (by decide) (by decide)
  exact ⟨by decide, by decide, h.1, h.2.2.2.2.1⟩

/-- C1 counterexample: the claim asserts that every configured channel of
every persisted record holds `raw16 // 64`, citing data_collection.py among
its sources — but data_collection.py line 53 stores `channel.value`
unconverted.  In a successful data_collection.py cycle with
`MQ2_adc` raw code 65535, the persisted channel cell is 65535, whereas
`65535 // 64 = 1023`. -/
theorem C1_counterexample :
    (DataCollection.cycle true
        ⟨"2026-01-01T00:00:00", ⟨65535, 0, 0, 0, 0⟩,
          .ok (some (Value.float 24), some (Value.float 55)), .ok, false⟩).rows
      = [[Value.str "2026-01-01T00:00:00", Value.int 100,
          Value.float 24, Value.float 55,
          Value.int 65535, Value.int 0, Value.int 0, Value.int 0, Value.int 0]]
    ∧ Value.int 65535 ≠ Value.int (65535 / 64) := by
  exact ⟨rfl, by decide⟩

/-- C1 (amended): in MQ135.py and data_collection1.py the value recorded in
each channel column of a persisted row is `raw16 // 64`, which lies in
`[0, 1023]` for `raw16 ∈ [0, 65535]`, is monotone non-decreasing in
`raw16`, and maps 65535 to 1023 and 0 to 0; data_collection.py records the
unconverted 16-bit code instead. -/
theorem C1_conversion (flag : Bool) (ts : String) (t hm : Value)
    (raw16 : Nat) (r : Raws) (rb : Bool) (hraw : raw16 ≤ 65535) :
    (MQ135.cycle flag ⟨ts, raw16, .ok (some t, some hm), .ok, rb⟩).rows
        = [MQ135.sensorRow ts t hm raw16]
    ∧ (MQ135.sensorRow ts t hm raw16).getD 4 (Value.str "")
        = Value.int (MQ135.readChannel raw16)
    ∧ MQ135.readChannel raw16 ≤ 1023
    ∧ (∀ a b : Nat, a ≤ b → MQ135.readChannel a ≤ MQ135.readChannel b)
    ∧ MQ135.readChannel 65535 = 1023
    ∧ MQ135.readChannel 0 = 0
    ∧ (DataCollection1.cycle flag ⟨ts, r, .ok (some t, some hm), .ok, rb⟩).rows
        = [DataCollection1.sensorRow ts t hm r]
    ∧ (DataCollection1.sensorRow ts t hm r).getD 4 (Value.str "")
        = Value.int (DataCollection1.readChannel r.mq2)
    ∧ (∀ a : Nat, a ≤ 65535 → DataCollection1.readChannel a ≤ 1023) := by
  refine ⟨rfl, rfl, ?_, ?_, rfl, rfl, rfl, rfl, ?_⟩
  · simp only [MQ135.readChannel]
    omega
  · intro a b hab
    exact Nat.div_le_div_right hab
  · intro a ha
    simp only [DataCollection1.readChannel]
    omega

theorem C1_conversion_witness :
    (65535 : Nat) ≤ 65535
    ∧ (MQ135.cycle true ⟨"t", 65535,
        .ok (some (Value.float 24), some (Value.float 55)), .ok, false⟩).rows
        = [MQ135.sensorRow "t" (Value.float 24) (Value.float 55) 65535]
    ∧ MQ135.readChannel 65535 ≤ 1023 := by
  have h := C1_conversion true "t" (Value.float 24) (Value.float 55) 65535
    ⟨1, 2, 3, 4, 5⟩ false (by decide)
  exact ⟨by decide, h.1, h.2.2.1⟩

/-- C6 counterexample: the claim asserts every channel cell of every data
row is an integer in `[0, 1023]`, citing data_collection.py among its
sources — but a successful data_collection.py cycle with `MQ2_adc` raw code
2048 persists the cell value 2048, which exceeds 1023. -/
theorem C6_counterexample :
    ((DataCollection.cycle false
        ⟨"t", ⟨2048, 0, 0, 0, 0⟩,
          .ok (some (Value.float 24), some (Value.float 55)), .ok,
          false⟩).rows.getD 0 []).getD 4 (Value.str "")
      = Value.int 2048
    ∧ ¬ ((2048 : Int) ≤ 1023) := by
  exact ⟨rfl, by decide⟩

/-- C6 (amended): every data row has the same number of fields, in the same
fixed order, as the header row — timestamp, true_ppm, temp_c, hum_pct, then
the channels in fixed order — in every variant and across an arbitrary run
length; the channel cells are integers in `[0, 1023]` in MQ135.py and
data_collection1.py (whose reads divide by 64), while data_collection.py
persists the unconverted 16-bit code in `[0, 65535]`.  Stated run-wide for
MQ135.py and per-row for data_collection1.py. -/
theorem C6_schema_stability (inputs : List (CycleIn Nat))
    (s : Bool × FileState) (ts : String) (t hm : Value) (r : Raws)
    (flag : Bool) (rb : Bool)
    (hraw : ∀ i ∈ inputs, i.raw ≤ 65535)
    (h2 : r.mq2 ≤ 65535) (h4 : r.mq4 ≤ 65535) (h5 : r.mq5 ≤ 65535)
    (h9 : r.mq9 ≤ 65535) (h135 : r.mq135 ≤ 65535) :
    (∀ row ∈ emittedRows (MQ135.runOuts s inputs),
       row.length = MQ135.headerCols.length ∧
       ∃ ts0 t0 h0 n, n ≤ 1023 ∧
         row = [Value.str ts0, Value.int TRUE_PPM_VALUE, t0, h0,
                Value.int (n : Nat)])
    ∧ (DataCollection1.cycle flag ⟨ts, r, .ok (some t, some hm), .ok, rb⟩).rows
        = [DataCollection1.sensorRow ts t hm r]
    ∧ (DataCollection1.sensorRow ts t hm r).length
        = DataCollection1.headerCols.length
    ∧ (∀ k, 4 ≤ k → k ≤ 8 → ∃ n : Nat, n ≤ 1023 ∧
        (DataCollection1.sensorRow ts t hm r).getD k (Value.str "")
          = Value.int (n : Nat)) := by
  refine ⟨?_, rfl, rfl, ?_⟩
  · intro row hrow
    refine flagRunOuts_rows_pred MQ135.sensorRow MQ135.headerCols
      (fun row => row.length = MQ135.headerCols.length ∧
        ∃ ts0 t0 h0 n, n ≤ 1023 ∧
          row = [Value.str ts0, Value.int TRUE_PPM_VALUE, t0, h0,
                 Value.int (n : Nat)])
      inputs s ?_ row hrow
    intro i hi t0 h0
    refine ⟨rfl, i.ts, pyFloat t0, pyFloat h0, MQ135.readChannel i.raw, ?_, ?_⟩
    · have := hraw i hi
      simp only [MQ135.readChannel]
      omega
    · simp [MQ135.sensorRow]
  · intro k hk1 hk2
    interval_cases k
    · exact ⟨DataCollection1.readChannel r.mq2, by
        simp only [DataCollection1.readChannel]; omega, rfl⟩
    · exact ⟨DataCollection1.readChannel r.mq4, by
        simp only [DataCollection1.readChannel]; omega, rfl⟩
    · exact ⟨DataCollection1.readChannel r.mq5, by
        simp only [DataCollection1.readChannel]; omega, rfl⟩
    · exact ⟨DataCollection1.readChannel r.mq9, by
        simp only [DataCollection1.readChannel]; omega, rfl⟩
    · exact ⟨DataCollection1.readChannel r.mq135, by
        simp only [DataCollection1.readChannel]; omega, rfl⟩

theorem C6_schema_stability_witness :
    (∀ i ∈ ([⟨"t", 65535, .ok (some (Value.float 24), some (Value.float 55)),
        .ok, false⟩] : List (CycleIn Nat)), i.raw ≤ 65535)
    ∧ (∀ row ∈ emittedRows (MQ135.runOuts (true, none)
        [⟨"t", 65535, .ok (some (Value.float 24), some (Value.float 55)),
          .ok, false⟩]),
       row.length = MQ135.headerCols.length ∧
       ∃ ts0 t0 h0 n, n ≤ 1023 ∧
         row = [Value.str ts0, Value.int TRUE_PPM_VALUE, t0, h0,
                Value.int (n : Nat)]) := by
  have h := C6_schema_stability
    [⟨"t", 65535, .ok (some (Value.float 24), some (Value.float 55)), .ok, false⟩]
    (true, none) "t" (Value.float 24) (Value.float 55) ⟨1, 2, 3, 4, 5⟩
    true false (by decide) (by decide) (by decide) (by decide) (by decide)
    (by decide)
  exact ⟨by decide, h.1⟩

/-- C8: in every persisted record of a successful cycle the `true_ppm` cell
is the process-wide constant `TRUE_PPM_VALUE = 100` (identical for every
record of the run, since every appended row is built the same way), and the
`temp_c` / `hum_pct` cells are floats: MQ135.py casts with `float(...)`, and
data_collection.py / data_collection1.py pass the reader's values through,
which are floats under the EnvironmentalReader contract (hypotheses). -/
theorem C8_record_constants (flag fa fb : Bool) (ts : String) (t hm : Value)
    (raw16 : Nat) (r : Raws) (rb : Bool)
    (ht : t.isFloat = true) (hh : hm.isFloat = true) :
    ((MQ135.cycle flag ⟨ts, raw16, .ok (some t, some hm), .ok, rb⟩).rows
        = [MQ135.sensorRow ts t hm raw16]
      ∧ (MQ135.sensorRow ts t hm raw16).getD 1 (Value.str "")
          = Value.int TRUE_PPM_VALUE
      ∧ ((MQ135.sensorRow ts t hm raw16).getD 2 (Value.str "")).isFloat = true
      ∧ ((MQ135.sensorRow ts t hm raw16).getD 3 (Value.str "")).isFloat = true)
    ∧ ((DataCollection.cycle fa ⟨ts, r, .ok (some t, some hm), .ok, rb⟩).rows
        = [DataCollection.sensorRow ts t hm r]
      ∧ (DataCollection.sensorRow ts t hm r).getD 1 (Value.str "")
          = Value.int TRUE_PPM_VALUE
      ∧ ((DataCollection.sensorRow ts t hm r).getD 2 (Value.str "")).isFloat = true
      ∧ ((DataCollection.sensorRow ts t hm r).getD 3 (Value.str "")).isFloat = true)
    ∧ ((DataCollection1.cycle fb ⟨ts, r, .ok (some t, some hm), .ok, rb⟩).rows
        = [DataCollection1.sensorRow ts t hm r]
      ∧ (DataCollection1.sensorRow ts t hm r).getD 1 (Value.str "")
          = Value.int TRUE_PPM_VALUE
      ∧ ((DataCollection1.sensorRow ts t hm r).getD 2 (Value.str "")).isFloat = true
      ∧ ((DataCollection1.sensorRow ts t hm r).getD 3 (Value.str "")).isFloat = true) := by
  refine ⟨⟨rfl, rfl, ?_, ?_⟩, ⟨rfl, rfl, ht, hh⟩, ⟨rfl, rfl, ht, hh⟩⟩
  · cases t <;> rfl
  · cases hm <;> rfl

theorem C8_record_constants_witness :
    (Value.float 24).isFloat = true ∧ (Value.float 55).isFloat = true
    ∧ ((MQ135.sensorRow "t" (Value.float 24) (Value.float 55) 7).getD 1
        (Value.str "") = Value.int TRUE_PPM_VALUE)
    ∧ ((DataCollection.sensorRow "t" (Value.float 24) (Value.float 55)
        ⟨1, 2, 3, 4, 5⟩).getD 2 (Value.str "")).isFloat = true := by
  have h := C8_record_constants true true true "t" (Value.float 24)
    (Value.float 55) 7 ⟨1, 2, 3, 4, 5⟩ false (by decide) (by decide)
  exact ⟨by decide, by decide, h.1.2.1, h.2.1.2.2.1⟩

/-- C2 counterexample: the claim says the header decision is computed
exactly once, at sink creation, and never re-derived during the run, citing
data_collection.py among its sources — but data_collection.py line 104
recomputes `header = not pd.io.common.file_exists(log_file)` at every
append.  Observable consequence: if the output file is externally removed
between two successful cycles of one run, data_collection.py emits a header
twice in that run (impossible for a decision fixed at creation, which can
emit at most one header), while MQ135.py's flag-based sink emits exactly
one in the same scenario. -/
theorem C2_counterexample :
    headersEmitted (DataCollection.runOuts none
      [⟨"t1", ⟨1, 2, 3, 4, 5⟩,
         .ok (some (Value.float 24), some (Value.float 55)), .ok, false⟩,
       ⟨"t2", ⟨1, 2, 3, 4, 5⟩,
         .ok (some (Value.float 24), some (Value.float 55)), .ok, true⟩]) = 2
    ∧ headersEmitted (MQ135.runOuts (MQ135.mkSink none, none)
      [⟨"t1", 7, .ok (some (Value.float 24), some (Value.float 55)), .ok, false⟩,
       ⟨"t2", 7, .ok (some (Value.float 24), some (Value.float 55)), .ok, true⟩])
      = 1 := by
  exact ⟨rfl, rfl⟩

/-- C2 (amended): in MQ135.py and data_collection1.py the `header_needed`
flag is computed exactly once, at sink creation, from whether the output
file already exists, and is never re-derived; appending N ≥ 1 records to a
fresh path yields a file that is exactly one header row, at the start,
followed by the N data rows, with the header emitted by exactly one cycle.
data_collection.py instead re-derives the header decision from file
existence at every append (which still yields a single header when the file
is not externally disturbed). -/
theorem C2_header_once_fresh (inputs : List (CycleIn Nat))
    (inputs1 : List (CycleIn Raws))
    (hnr : ∀ i ∈ inputs, i.removedBefore = false)
    (hnr1 : ∀ j ∈ inputs1, j.removedBefore = false)
    (hne : emittedRows (MQ135.runOuts (MQ135.mkSink none, none) inputs) ≠ [])
    (hne1 : emittedRows (DataCollection1.runOuts
      (DataCollection1.mkSink none, none) inputs1) ≠ []) :
    (MQ135.runState (MQ135.mkSink none, none) inputs
       = (false, some (Line.header MQ135.headerCols ::
           (emittedRows (MQ135.runOuts (MQ135.mkSink none, none)
             inputs)).map Line.row))
     ∧ headersEmitted (MQ135.runOuts (MQ135.mkSink none, none) inputs) = 1)
    ∧ (DataCollection1.runState (DataCollection1.mkSink none, none) inputs1
       = (false, some (Line.header DataCollection1.headerCols ::
           (emittedRows (DataCollection1.runOuts
             (DataCollection1.mkSink none, none) inputs1)).map Line.row))
     ∧ headersEmitted (DataCollection1.runOuts
         (DataCollection1.mkSink none, none) inputs1) = 1) := by
  constructor
  · rcases flagRunState_from_fresh MQ135.sensorRow MQ135.headerCols inputs hnr
      with ⟨h1, h2, h3⟩ | ⟨h1, h2⟩
    · exact absurd h2 hne
    · exact ⟨h1, h2⟩
  · rcases flagRunState_from_fresh DataCollection1.sensorRow
      DataCollection1.headerCols inputs1 hnr1 with ⟨h1, h2, h3⟩ | ⟨h1, h2⟩
    · exact absurd h2 hne1
    · exact ⟨h1, h2⟩

theorem C2_header_once_fresh_witness :
    (emittedRows (MQ135.runOuts (MQ135.mkSink none, none)
      [⟨"t", 7, .ok (some (Value.float 24), some (Value.float 55)),
        .ok, false⟩]) ≠ [])
    ∧ headersEmitted (MQ135.runOuts (MQ135.mkSink none, none)
        [⟨"t", 7, .ok (some (Value.float 24), some (Value.float 55)),
          .ok, false⟩]) = 1
    ∧ headersEmitted (DataCollection1.runOuts (DataCollection1.mkSink none, none)
        [⟨"t", ⟨1, 2, 3, 4, 5⟩,
          .ok (some (Value.float 24), some (Value.float 55)), .ok, false⟩]) = 1 := by
  have h := C2_header_once_fresh
    [⟨"t", 7, .ok (some (Value.float 24), some (Value.float 55)), .ok, false⟩]
    [⟨"t", ⟨1, 2, 3, 4, 5⟩,
      .ok (some (Value.float 24), some (Value.float 55)), .ok, false⟩]
    (by decide) (by decide) (by decide) (by decide)
  exact ⟨by decide, h.1.2, h.2.2⟩

/-- C7: starting either flag-based sink (MQ135.py, data_collection1.py) on
a path that already contains a header from a prior run, and appending any
number of records without external interference, never writes a second
header: the creation-time check finds the file present, so the flag starts
false, stays false, and no cycle of the run emits a header; the file ends
as the old content followed by the newly appended data rows, the existing
content never being rewritten or inspected. -/
theorem C7_restart_never_duplicates_header (inputs : List (CycleIn Nat))
    (inputs1 : List (CycleIn Raws)) (rows0 rows1 : List Line)
    (hnr : ∀ i ∈ inputs, i.removedBefore = false)
    (hnr1 : ∀ j ∈ inputs1, j.removedBefore = false) :
    (MQ135.runState
        (MQ135.mkSink (some (Line.header MQ135.headerCols :: rows0)),
         some (Line.header MQ135.headerCols :: rows0)) inputs
       = (false, some (Line.header MQ135.headerCols :: (rows0 ++
           (emittedRows (MQ135.runOuts
             (MQ135.mkSink (some (Line.header MQ135.headerCols :: rows0)),
              some (Line.header MQ135.headerCols :: rows0))
             inputs)).map Line.row)))
     ∧ headersEmitted (MQ135.runOuts
         (MQ135.mkSink (some (Line.header MQ135.headerCols :: rows0)),
          some (Line.header MQ135.headerCols :: rows0)) inputs) = 0)
    ∧ (DataCollection1.runState
        (DataCollection1.mkSink
          (some (Line.header DataCollection1.headerCols :: rows1)),
         some (Line.header DataCollection1.headerCols :: rows1)) inputs1
       = (false, some (Line.header DataCollection1.headerCols :: (rows1 ++
           (emittedRows (DataCollection1.runOuts
             (DataCollection1.mkSink
               (some (Line.header DataCollection1.headerCols :: rows1)),
              some (Line.header DataCollection1.headerCols :: rows1))
             inputs1)).map Line.row)))
     ∧ headersEmitted (DataCollection1.runOuts
         (DataCollection1.mkSink
           (some (Line.header DataCollection1.headerCols :: rows1)),
          some (Line.header DataCollection1.headerCols :: rows1)) inputs1)
         = 0) :=
  ⟨flagRunState_from_header MQ135.sensorRow MQ135.headerCols inputs hnr rows0,
   flagRunState_from_header DataCollection1.sensorRow DataCollection1.headerCols
     inputs1 hnr1 rows1⟩

theorem C7_restart_never_duplicates_header_witness :
    headersEmitted (MQ135.runOuts
      (MQ135.mkSink (some [Line.header MQ135.headerCols]),
       some [Line.header MQ135.headerCols])
      [⟨"t", 7, .ok (some (Value.float 24), some (Value.float 55)),
        .ok, false⟩]) = 0
    ∧ headersEmitted (DataCollection1.runOuts
      (DataCollection1.mkSink (some [Line.header DataCollection1.headerCols]),
       some [Line.header DataCollection1.headerCols])
      [⟨"t", ⟨1, 2, 3, 4, 5⟩,
        .ok (some (Value.float 24), some (Value.float 55)), .ok, false⟩]) = 0 := by
  have h := C7_restart_never_duplicates_header
    [⟨"t", 7, .ok (some (Value.float 24), some (Value.float 55)), .ok, false⟩]
    [⟨"t", ⟨1, 2, 3, 4, 5⟩,
      .ok (some (Value.float 24), some (Value.float 55)), .ok, false⟩]
    [] [] (by decide) (by decide)
  exact ⟨h.1.2, h.2.2⟩
